import Mathlib

/-!
Verification development for the Telegram authentication and session
management core of the repository.

The source consists of three layers:

* a signature verifier (`validateTelegramAuth`, `createDataCheckString`,
  `convertToTelegramUser` in the server's telegram module);
* an in-memory session store (`createSession`, `getSessionUser`,
  `deleteSession` plus a periodic cleanup sweep in the session middleware);
* an auth router exposing widget login, bot login, token polling,
  current-user lookup and logout endpoints.

Machine integers of the source are JavaScript numbers used only in integer
ranges; they are embedded as `Int`.  HMAC-SHA256 and hex encoding are
library primitives external to the repository; they are abstracted as
function parameters `hmacS` (string-keyed), `hmacD` (digest-keyed) and
`hex`, so every theorem about the verifier holds for the real primitives
by instantiation.
-/

namespace TelegramAuth

/-- The assertion delivered by the Telegram login widget
(`TelegramAuthData` in the source).  Optional fields are `Option`;
required fields are plain, with the JavaScript falsy values (`0`, `""`)
still representable. -/
structure TelegramAuthData where
  id : Int
  first_name : String
  last_name : Option String
  username : Option String
  photo_url : Option String
  auth_date : Int
  hash : String
deriving Repr, DecidableEq

/-- The identity retained after verification (`TelegramUser`). -/
structure TelegramUser where
  id : Int
  firstName : String
  lastName : Option String
  username : Option String
  photoUrl : Option String
deriving Repr, DecidableEq

/-- `convertToTelegramUser` from the source: copies the assertion's
fields into a `TelegramUser`. -/
def convertToTelegramUser (data : TelegramAuthData) : TelegramUser :=
  { id := data.id
    firstName := data.first_name
    lastName := data.last_name
    username := data.username
    photoUrl := data.photo_url }

/-- JavaScript truthiness of an optional string: `undefined` and `""`
are falsy. -/
def strTruthy : Option String → Bool
  | none => false
  | some s => s ≠ ""

/-- Entry list contributed by an optional string field: present only
when truthy, as in `if (data.x) entries.push(['x', data.x])`. -/
def optEntry (key : String) (o : Option String) : List (String × String) :=
  if strTruthy o then [(key, o.getD "")] else []

/-- The entries pushed by `createDataCheckString`, in source order
(id, first_name, last_name, username, photo_url, auth_date), each
guarded by JavaScript truthiness of the field's value. -/
def rawEntries (data : TelegramAuthData) : List (String × String) :=
  (if data.id = 0 then [] else [("id", toString data.id)]) ++
  (if data.first_name = "" then [] else [("first_name", data.first_name)]) ++
  optEntry "last_name" data.last_name ++
  optEntry "username" data.username ++
  optEntry "photo_url" data.photo_url ++
  (if data.auth_date = 0 then [] else [("auth_date", toString data.auth_date)])

/-- Lexicographic order on strings by code point, the order
`localeCompare` induces on the ASCII keys compared here. -/
def strLt (a b : String) : Bool :=
  go a.data b.data
where
  go : List Char → List Char → Bool
    | [], [] => false
    | [], _ :: _ => true
    | _ :: _, [] => false
    | c :: cs, d :: ds =>
      if c.toNat < d.toNat then true
      else if d.toNat < c.toNat then false
      else go cs ds

/-- Insert an entry into a key-sorted entry list, keeping it sorted
by key (the comparator of `entries.sort` compares keys only). -/
def insertEntry (e : String × String) : List (String × String) → List (String × String)
  | [] => [e]
  | f :: rest => if strLt f.1 e.1 then f :: insertEntry e rest else e :: f :: rest

/-- Sorting of the entry list by key, lexicographically ascending
(`entries.sort((a, b) => a[0].localeCompare(b[0]))`). -/
def sortEntries (l : List (String × String)) : List (String × String) :=
  l.foldr insertEntry []

/-- `createDataCheckString` from the source: truthy fields except the
hash, as `key=value`, sorted by key, joined with newlines. -/
def createDataCheckString (data : TelegramAuthData) : String :=
  String.intercalate "\n"
    ((sortEntries (rawEntries data)).map (fun e => e.1 ++ "=" ++ e.2))

/-- The check string as the spec describes it: every assertion field
except the signature that is present and non-empty (for the numeric
fields, non-zero), written `key=value`, listed in lexicographic key
order (`auth_date < first_name < id < last_name < photo_url <
username`), joined with `\n`.  Stated from the spec's words, to be
compared with `createDataCheckString`. -/
def specDataCheckString (data : TelegramAuthData) : String :=
  String.intercalate "\n"
    (((if data.auth_date = 0 then [] else [("auth_date", toString data.auth_date)]) ++
      (if data.first_name = "" then [] else [("first_name", data.first_name)]) ++
      (if data.id = 0 then [] else [("id", toString data.id)]) ++
      optEntry "last_name" data.last_name ++
      optEntry "photo_url" data.photo_url ++
      optEntry "username" data.username).map (fun e => e.1 ++ "=" ++ e.2))

/-- The fixed freshness window of the verifier, in seconds
(`const twentyFourHours = 24 * 60 * 60`). -/
def twentyFourHours : Int := 24 * 60 * 60

/-- `validateTelegramAuth` from the source.  `currentTime` is the
verification time in seconds (`Math.floor(Date.now() / 1000)`).
`hmacS`/`hmacD` are HMAC-SHA256 with a string key and a digest key, and
`hex` the hex encoding, abstracted because `node:crypto` is external to
the repository.  Rejects when the assertion is older than 24 hours,
otherwise recomputes the signature over the check string with the key
derived from the bot token under the constant key `"WebAppData"` and
compares it with the assertion's hash. -/
def validateTelegramAuth {D : Type} (hmacS : String → String → D)
    (hmacD : D → String → D) (hex : D → String)
    (data : TelegramAuthData) (botToken : String) (currentTime : Int) : Bool :=
  if currentTime - data.auth_date > twentyFourHours then
    false
  else
    let secretKey := hmacS "WebAppData" botToken
    let calculatedHash := hex (hmacD secretKey (createDataCheckString data))
    calculatedHash = data.hash

/-! ## Session store

The in-memory session store of the session middleware: a map from
session id to record, embedded as a list of records together with a
fresh-id counter.  `crypto.randomBytes(32).toString('hex')` is a fresh
unique identifier; it is embedded as the counter value, so freshness is
the counter's strict monotonicity.  Times are milliseconds
(`Date.now()`), embedded as `Int`. -/

/-- A stored session (`SessionUser` in the source).  `authToken` is the
correlation token column of the database-backed variant; the in-memory
`createSession` simply stores what it is given. -/
structure SessionUser where
  telegramId : Int
  firstName : String
  lastName : Option String
  username : Option String
  photoUrl : Option String
  authToken : Option String
  sessionId : Nat
  createdAt : Int
  lastActivity : Int
deriving Repr, DecidableEq

/-- The argument of `createSession`: a session record minus
`sessionId`, `createdAt` and `lastActivity`. -/
structure SessionInput where
  telegramId : Int
  firstName : String
  lastName : Option String
  username : Option String
  photoUrl : Option String
  authToken : Option String
deriving Repr, DecidableEq

/-- The session store: the `sessions` map plus the supply of fresh
session identifiers. -/
structure Store where
  sessions : List SessionUser
  nextId : Nat
deriving Repr, DecidableEq

/-- The empty store. -/
def Store.empty : Store := { sessions := [], nextId := 0 }

/-- `SESSION_TIMEOUT_MS = 7 * 24 * 60 * 60 * 1000` — 7 days. -/
def SESSION_TIMEOUT_MS : Int := 7 * 24 * 60 * 60 * 1000

/-- `CLEANUP_INTERVAL_MS = 60 * 60 * 1000` — the fixed 1-hour period of
the cleanup timer. -/
def CLEANUP_INTERVAL_MS : Int := 60 * 60 * 1000

/-- `now - session.lastActivity.getTime() > SESSION_TIMEOUT_MS`. -/
def isExpired (now : Int) (s : SessionUser) : Bool :=
  now - s.lastActivity > SESSION_TIMEOUT_MS

/-- `sessions.get(sessionId)`. -/
def findBySessionId (st : Store) (sid : Nat) : Option SessionUser :=
  st.sessions.find? (fun s => s.sessionId = sid)

/-- `createSession` from the source: mints a fresh session id, stores a
record whose `createdAt` and `lastActivity` are both `now`, and returns
the id.  A blind insert: no lookup of any existing session. -/
def createSession (st : Store) (now : Int) (u : SessionInput) : Nat × Store :=
  let sid := st.nextId
  let s : SessionUser :=
    { telegramId := u.telegramId
      firstName := u.firstName
      lastName := u.lastName
      username := u.username
      photoUrl := u.photoUrl
      authToken := u.authToken
      sessionId := sid
      createdAt := now
      lastActivity := now }
  (sid, { sessions := s :: st.sessions, nextId := st.nextId + 1 })

/-- `getSessionUser` from the source: absent if missing; if expired,
deletes the record and is absent; otherwise bumps `lastActivity` to
`now` in the store and returns the bumped record. -/
def getSessionUser (st : Store) (now : Int) (sid : Nat) :
    Option SessionUser × Store :=
  match findBySessionId st sid with
  | none => (none, st)
  | some s =>
    if isExpired now s then
      (none, { st with sessions := st.sessions.filter (fun t => t.sessionId ≠ sid) })
    else
      let s' := { s with lastActivity := now }
      (some s',
       { st with sessions := st.sessions.map (fun t => if t.sessionId = sid then s' else t) })

/-- `deleteSession` from the source: `sessions.delete(sessionId)` —
returns whether a record existed. -/
def deleteSession (st : Store) (sid : Nat) : Bool × Store :=
  match findBySessionId st sid with
  | none => (false, st)
  | some _ =>
    (true, { st with sessions := st.sessions.filter (fun t => t.sessionId ≠ sid) })

/-- One tick of the cleanup timer: removes every session whose age
`now - lastActivity` exceeds `SESSION_TIMEOUT_MS`. -/
def cleanupTick (st : Store) (now : Int) : Store :=
  { st with sessions := st.sessions.filter (fun s => ¬ isExpired now s) }

/-- Modelled from the spec: `getByExternalUserId` — the database-backed
session module providing `getSessionByTelegramId` is not under `src/`
(only its callers are).  Per §4.2 it has the same expiry semantics as
`getBySessionId` but is a read-only probe that does not bump
activity. -/
def getSessionByTelegramId (st : Store) (now : Int) (tid : Int) :
    Option SessionUser :=
  match st.sessions.find? (fun s => s.telegramId = tid) with
  | none => none
  | some s => if isExpired now s then none else some s

/-- Modelled from the spec: `getByCorrelationToken` — the
database-backed session module providing `getSessionByAuthToken` is not
under `src/`.  Per §4.2/§4.3 it has the same expiry semantics and is a
pure read that must not mutate state on a miss. -/
def getSessionByAuthToken (st : Store) (now : Int) (token : String) :
    Option SessionUser :=
  match st.sessions.find? (fun s => s.authToken = some token) with
  | none => none
  | some s => if isExpired now s then none else some s

/-- The inline database update of the bot-login handler: set the
`authToken` column of the row whose `sessionId` matches. -/
def setAuthToken (st : Store) (sid : Nat) (token : String) : Store :=
  { st with
    sessions := st.sessions.map
      (fun t => if t.sessionId = sid then { t with authToken := some token } else t) }

/-- The identity fields of a stored session, as returned to clients. -/
def userOf (s : SessionUser) : TelegramUser :=
  { id := s.telegramId
    firstName := s.firstName
    lastName := s.lastName
    username := s.username
    photoUrl := s.photoUrl }

/-! ## Auth router endpoints -/

/-- Outcome of `POST /api/auth/telegram/bot/login`. -/
inductive BotLoginResult where
  | missingFields
  | serverError
  | success (user : TelegramUser) (sessionId : Nat)
deriving Repr, DecidableEq

/-- The bot-login handler from the auth router.  Rejects when
`telegramId` or `firstName` is falsy; otherwise looks up a live session
for the Telegram id.  If none exists it creates one carrying the auth
token and reads it back with `getSessionUser`; if one exists it updates
the token column only when a truthy token was supplied and the stored
token is falsy (`if (authToken && !sessionUser.authToken)`), and
answers with the existing record's session id. -/
def botLogin (st : Store) (now : Int) (telegramId : Int) (firstName : String)
    (lastName username photoUrl : Option String) (authToken : Option String) :
    BotLoginResult × Store :=
  if telegramId = 0 ∨ firstName = "" then
    (.missingFields, st)
  else
    match getSessionByTelegramId st now telegramId with
    | none =>
      match getSessionUser (createSession st now
          { telegramId := telegramId, firstName := firstName, lastName := lastName
            username := username, photoUrl := photoUrl, authToken := authToken }).2
          now
          (createSession st now
          { telegramId := telegramId, firstName := firstName, lastName := lastName
            username := username, photoUrl := photoUrl, authToken := authToken }).1 with
      | (some s, st2) => (.success (userOf s) s.sessionId, st2)
      | (none, st2) => (.serverError, st2)
    | some s =>
      if strTruthy authToken ∧ ¬ strTruthy s.authToken then
        match authToken with
        | some tok =>
          (.success (userOf { s with authToken := some tok }) s.sessionId,
           setAuthToken st s.sessionId tok)
        | none => (.success (userOf s) s.sessionId, st)
      else
        (.success (userOf s) s.sessionId, st)

/-- Outcome of `GET /api/auth/telegram/check`. -/
inductive CheckResult where
  | missingToken
  | notAuthenticated
  | authenticated (user : TelegramUser) (sessionId : Nat)
deriving Repr, DecidableEq

/-- The token-polling handler from the auth router: 400 when the token
query parameter is falsy, otherwise a pure lookup by auth token; the
store is returned unchanged alongside the response. -/
def checkToken (st : Store) (now : Int) (token : String) : CheckResult × Store :=
  if token = "" then
    (.missingToken, st)
  else
    match getSessionByAuthToken st now token with
    | some s => (.authenticated (userOf s) s.sessionId, st)
    | none => (.notAuthenticated, st)

/-- Outcome of `POST /api/auth/telegram/login`. -/
inductive LoginResult where
  | notConfigured
  | missingFields
  | unauthorized
  | success (user : TelegramUser) (sessionId : Nat)
deriving Repr, DecidableEq

/-- The required-field guard of the widget-login handler:
`!authData.id || !authData.first_name || !authData.auth_date ||
!authData.hash` — JavaScript truthiness, so the numeric value `0` and
the empty string count as missing. -/
def missingRequiredFields (data : TelegramAuthData) : Bool :=
  data.id = 0 ∨ data.first_name = "" ∨ data.auth_date = 0 ∨ data.hash = ""

/-- The widget-login handler from the auth router.  500 when no bot
token is configured (absent or empty environment value), 400 when a
required field is falsy, 401 when `validateTelegramAuth` rejects;
otherwise creates a session from the converted identity and returns it
with the fresh session id.  `nowSec` is the verifier's clock in
seconds, `nowMs` the store's clock in milliseconds. -/
def telegramLogin {D : Type} (hmacS : String → String → D)
    (hmacD : D → String → D) (hex : D → String) (botToken : Option String)
    (st : Store) (nowSec nowMs : Int) (data : TelegramAuthData) :
    LoginResult × Store :=
  match botToken with
  | none => (.notConfigured, st)
  | some tok =>
    if tok = "" then (.notConfigured, st)
    else if missingRequiredFields data then (.missingFields, st)
    else if ¬ validateTelegramAuth hmacS hmacD hex data tok nowSec then
      (.unauthorized, st)
    else
      let user := convertToTelegramUser data
      let r := createSession st nowMs
        { telegramId := user.id, firstName := user.firstName
          lastName := user.lastName, username := user.username
          photoUrl := user.photoUrl, authToken := none }
      (.success user r.1, r.2)

/-! ## Operation traces

A trace of timed store operations, for stating invariants that hold
after any sequence of operations. -/

/-- One store-level or router-level operation. -/
inductive Op where
  | create (u : SessionInput)
  | get (sid : Nat)
  | del (sid : Nat)
  | cleanup
  | check (token : String)
  | bot (telegramId : Int) (firstName : String)
        (lastName username photoUrl authToken : Option String)
deriving Repr, DecidableEq

/-- Apply one operation at time `now`, keeping only the store. -/
def applyOp (st : Store) (now : Int) : Op → Store
  | .create u => (createSession st now u).2
  | .get sid => (getSessionUser st now sid).2
  | .del sid => (deleteSession st sid).2
  | .cleanup => cleanupTick st now
  | .check token => (checkToken st now token).2
  | .bot tid fn ln un ph tok => (botLogin st now tid fn ln un ph tok).2

/-- Run a timed trace of operations. -/
def run (st : Store) : List (Int × Op) → Store
  | [] => st
  | (t, op) :: rest => run (applyOp st t op) rest

/-- Store well-formedness at time `now`: every stored session id is
below the fresh-id counter, and every record satisfies
`createdAt ≤ lastActivity ≤ now`. -/
def Wf (st : Store) (now : Int) : Prop :=
  ∀ s ∈ st.sessions,
    s.sessionId < st.nextId ∧ s.createdAt ≤ s.lastActivity ∧ s.lastActivity ≤ now

/-- The times of a trace are nondecreasing and bounded below by `t0`
(real time only moves forward between operations). -/
def timesLB (t0 : Int) : List (Int × Op) → Prop
  | [] => True
  | (t, _) :: rest => t0 ≤ t ∧ timesLB t rest

/-- The record `createSession st now u` inserts, with `lastActivity`
field `la` (equal to `now` at insertion, later bumped by reads). -/
def freshRecord (st : Store) (now : Int) (u : SessionInput) (la : Int) :
    SessionUser :=
  { telegramId := u.telegramId, firstName := u.firstName
    lastName := u.lastName, username := u.username
    photoUrl := u.photoUrl, authToken := u.authToken
    sessionId := st.nextId, createdAt := now, lastActivity := la }

/-! ## Concrete sample data, used to evaluate the theorems -/

/-- A concrete assertion: user 42, first name Ann, issued at second 5. -/
def sampleAssertion : TelegramAuthData :=
  { id := 42, first_name := "Ann", last_name := none, username := none
    photo_url := none, auth_date := 5
    hash := "WebAppData:botsecret:auth_date=5\nfirst_name=Ann\nid=42" }

/-- A concrete stand-in for HMAC-SHA256: key and message joined by a
colon.  Used only to evaluate theorems that hold for every keyed hash. -/
def sampleHmac (key msg : String) : String := key ++ ":" ++ msg

/-- A concrete assertion whose required fields are syntactically
present but falsy: id 0 and empty optional strings. -/
def falsyAssertion : TelegramAuthData :=
  { id := 0, first_name := "Ann", last_name := some "", username := some ""
    photo_url := some "", auth_date := 5, hash := "sig" }

/-- A concrete identity handed to the session store. -/
def sampleInput : SessionInput :=
  { telegramId := 42, firstName := "Ann", lastName := none, username := none
    photoUrl := none, authToken := none }

/-- A concrete stored session for user 7 with a token already attached. -/
def sampleTokenSession : SessionUser :=
  { telegramId := 7, firstName := "Bob", lastName := none, username := none
    photoUrl := none, authToken := some "old-token", sessionId := 0
    createdAt := 0, lastActivity := 0 }

/-- A store holding only `sampleTokenSession`. -/
def sampleTokenStore : Store :=
  { sessions := [sampleTokenSession], nextId := 1 }

end TelegramAuth

namespace TelegramAuth

/-! ## Store lemmas -/

lemma findBySessionId_mem {st : Store} {sid : Nat} {s : SessionUser}
    (h : findBySessionId st sid = some s) :
    s ∈ st.sessions ∧ s.sessionId = sid := by
  refine ⟨List.mem_of_find?_eq_some h, ?_⟩
  have hp := List.find?_some h
  simpa using hp

lemma wf_mono {st : Store} {now now' : Int} (h : Wf st now) (hle : now ≤ now') :
    Wf st now' := by
  intro s hs
  obtain ⟨h1, h2, h3⟩ := h s hs
  exact ⟨h1, h2, le_trans h3 hle⟩

lemma wf_create {st : Store} {now : Int} (u : SessionInput) (h : Wf st now) :
    Wf (createSession st now u).2 now := by
  intro s hs
  simp only [createSession, List.mem_cons] at hs
  rcases hs with rfl | hs
  · exact ⟨Nat.lt_succ_self _, le_refl _, le_refl _⟩
  · obtain ⟨h1, h2, h3⟩ := h s hs
    exact ⟨Nat.lt_succ_of_lt h1, h2, h3⟩

lemma wf_get {st : Store} {now : Int} (sid : Nat) (h : Wf st now) :
    Wf (getSessionUser st now sid).2 now := by
  unfold getSessionUser
  split
  · exact h
  next s hf =>
    split
    next he =>
      intro t ht
      exact h t (List.mem_of_mem_filter ht)
    next he =>
      intro t ht
      simp only [List.mem_map] at ht
      obtain ⟨t', ht', rfl⟩ := ht
      obtain ⟨hs1, hs2, hs3⟩ := h s (findBySessionId_mem hf).1
      by_cases hid : t'.sessionId = sid
      · rw [if_pos hid]
        exact ⟨hs1, le_trans hs2 hs3, le_refl _⟩
      · rw [if_neg hid]
        exact h t' ht'

lemma wf_del {st : Store} {now : Int} (sid : Nat) (h : Wf st now) :
    Wf (deleteSession st sid).2 now := by
  unfold deleteSession
  split
  · exact h
  · intro t ht
    exact h t (List.mem_of_mem_filter ht)

lemma wf_cleanup {st : Store} {now : Int} (h : Wf st now) :
    Wf (cleanupTick st now) now := by
  intro t ht
  exact h t (List.mem_of_mem_filter ht)

lemma wf_setAuthToken {st : Store} {now : Int} (sid : Nat) (tok : String)
    (h : Wf st now) : Wf (setAuthToken st sid tok) now := by
  intro t ht
  simp only [setAuthToken, List.mem_map] at ht
  obtain ⟨t', ht', rfl⟩ := ht
  by_cases hid : t'.sessionId = sid
  · rw [if_pos hid]
    exact h t' ht'
  · rw [if_neg hid]
    exact h t' ht'

lemma checkToken_store (st : Store) (now : Int) (token : String) :
    (checkToken st now token).2 = st := by
  unfold checkToken
  by_cases h : token = ""
  · simp [h]
  · simp only [h, if_false]
    cases getSessionByAuthToken st now token <;> rfl

lemma wf_check {st : Store} {now : Int} (token : String) (h : Wf st now) :
    Wf (checkToken st now token).2 now := by
  rw [checkToken_store]
  exact h

lemma wf_create_get (st : Store) (now : Int) (u : SessionInput) (h : Wf st now) :
    Wf (getSessionUser (createSession st now u).2 now (createSession st now u).1).2
      now :=
  wf_get _ (wf_create u h)

lemma wf_bot {st : Store} {now : Int} (tid : Int) (fn : String)
    (ln un ph tok : Option String) (h : Wf st now) :
    Wf (botLogin st now tid fn ln un ph tok).2 now := by
  unfold botLogin
  split
  · exact h
  · split
    · split
      next s st2 hgu =>
        have hw := wf_create_get st now
          { telegramId := tid, firstName := fn, lastName := ln
            username := un, photoUrl := ph, authToken := tok } h
        rw [hgu] at hw
        exact hw
      next st2 hgu =>
        have hw := wf_create_get st now
          { telegramId := tid, firstName := fn, lastName := ln
            username := un, photoUrl := ph, authToken := tok } h
        rw [hgu] at hw
        exact hw
    next s hg =>
      split
      · split
        · exact wf_setAuthToken _ _ h
        · exact h
      · exact h

lemma wf_applyOp {st : Store} {now : Int} (op : Op) (h : Wf st now) :
    Wf (applyOp st now op) now := by
  cases op with
  | create u => exact wf_create u h
  | get sid => exact wf_get sid h
  | del sid => exact wf_del sid h
  | cleanup => exact wf_cleanup h
  | check token => exact wf_check token h
  | bot tid fn ln un ph tok => exact wf_bot tid fn ln un ph tok h

lemma find?_filter_ne (l : List SessionUser) (sid : Nat) :
    (l.filter (fun t => t.sessionId ≠ sid)).find?
      (fun t => t.sessionId = sid) = none := by
  induction l with
  | nil => rfl
  | cons a l ih =>
    by_cases ha : a.sessionId = sid
    · simp [List.filter_cons, ha, ih]
    · simp [List.filter_cons, ha, ih]

lemma find?_map_update {l : List SessionUser} {sid : Nat} {s0 : SessionUser}
    (s' : SessionUser)
    (hfind : l.find? (fun t => t.sessionId = sid) = some s0)
    (hs' : s'.sessionId = sid) :
    (l.map (fun t => if t.sessionId = sid then s' else t)).find?
      (fun t => t.sessionId = sid) = some s' := by
  induction l with
  | nil => simp at hfind
  | cons a l ih =>
    by_cases ha : a.sessionId = sid
    · simp only [List.map_cons, if_pos ha]
      exact List.find?_cons_of_pos _ (by simp [hs'])
    · have hstep : List.find? (fun t => decide (t.sessionId = sid)) (a :: l) =
          List.find? (fun t => decide (t.sessionId = sid)) l :=
        List.find?_cons_of_neg _ (by simp [ha])
      rw [hstep] at hfind
      simp only [List.map_cons, if_neg ha]
      have hstep2 : List.find? (fun t => decide (t.sessionId = sid))
          (a :: l.map (fun t => if t.sessionId = sid then s' else t)) =
          List.find? (fun t => decide (t.sessionId = sid))
            (l.map (fun t => if t.sessionId = sid then s' else t)) :=
        List.find?_cons_of_neg _ (by simp [ha])
      rw [hstep2]
      exact ih hfind

lemma createSession_eq (st : Store) (now : Int) (u : SessionInput) :
    createSession st now u =
      (st.nextId,
       { sessions := freshRecord st now u now :: st.sessions
         nextId := st.nextId + 1 }) := rfl

lemma getSessionUser_create (st : Store) (now now' : Int) (u : SessionInput)
    (hwin : now' - now ≤ SESSION_TIMEOUT_MS) :
    getSessionUser (createSession st now u).2 now' (createSession st now u).1 =
      (some (freshRecord st now u now'),
       { sessions := freshRecord st now u now' ::
           st.sessions.map (fun t =>
             if t.sessionId = st.nextId then freshRecord st now u now' else t)
         nextId := st.nextId + 1 }) := by
  have hfind : findBySessionId (createSession st now u).2
      (createSession st now u).1 = some (freshRecord st now u now) := by
    unfold findBySessionId
    rw [createSession_eq]
    exact List.find?_cons_of_pos _ (by simp [freshRecord])
  have hexp : ¬ isExpired now' (freshRecord st now u now) = true := by
    simp only [isExpired, freshRecord, decide_eq_true_eq, not_lt]
    exact hwin
  unfold getSessionUser
  rw [hfind]
  split
  next heq => exact Option.noConfusion heq
  next s heq =>
    injection heq with heq
    subst heq
    rw [if_neg hexp]
    rw [createSession_eq]
    dsimp only
    rw [List.map_cons,
      if_pos (show (freshRecord st now u now).sessionId = st.nextId from rfl)]
    rfl

lemma wf_run {trace : List (Int × Op)} :
    ∀ (st : Store) (t0 : Int), Wf st t0 → timesLB t0 trace →
      ∃ t1, Wf (run st trace) t1 := by
  induction trace with
  | nil => exact fun _ _ h _ => ⟨_, h⟩
  | cons p rest ih =>
    intro st t0 h hlb
    obtain ⟨hle, hlb'⟩ := hlb
    exact ih _ _ (wf_applyOp p.2 (wf_mono h hle)) hlb'

/-! ## Verifier lemmas -/

/-- The source's check-string entries, sorted, are exactly the spec's
entry list in lexicographic key order. -/
lemma sortEntries_rawEntries (d : TelegramAuthData) :
    sortEntries (rawEntries d) =
      (if d.auth_date = 0 then [] else [("auth_date", toString d.auth_date)]) ++
      (if d.first_name = "" then [] else [("first_name", d.first_name)]) ++
      (if d.id = 0 then [] else [("id", toString d.id)]) ++
      optEntry "last_name" d.last_name ++
      optEntry "photo_url" d.photo_url ++
      optEntry "username" d.username := by
  by_cases h1 : d.id = 0 <;> by_cases h2 : d.first_name = "" <;>
    by_cases h3 : strTruthy d.last_name = true <;>
    by_cases h4 : strTruthy d.username = true <;>
    by_cases h5 : strTruthy d.photo_url = true <;>
    by_cases h6 : d.auth_date = 0 <;>
    simp [rawEntries, optEntry, h1, h2, h3, h4, h5, h6, sortEntries, insertEntry] <;>
    rfl

/-! ## Claim theorems -/

/-- C2: for every assertion `A` and shared secret `S`, `verify` builds
the check string from exactly the truthy fields of `A` other than the
signature, each as `key=value`, sorted lexicographically by key and
joined with newlines; derives the secret key as HMAC-SHA256 keyed by
`"WebAppData"` over `S`; and, within the freshness window, succeeds
exactly when the hex-encoded HMAC-SHA256 of the check string under that
key equals `A`'s signature, in which case the returned identity's
fields equal `A`'s corresponding fields. -/
theorem verify_signature_exact {D : Type} (hmacS : String → String → D)
    (hmacD : D → String → D) (hex : D → String)
    (A : TelegramAuthData) (S : String) (now : Int)
    (hfresh : now - A.auth_date ≤ twentyFourHours) :
    createDataCheckString A = specDataCheckString A ∧
    (validateTelegramAuth hmacS hmacD hex A S now = true ↔
      hex (hmacD (hmacS "WebAppData" S) (createDataCheckString A)) = A.hash) ∧
    (validateTelegramAuth hmacS hmacD hex A S now = true →
      convertToTelegramUser A =
        { id := A.id, firstName := A.first_name, lastName := A.last_name
          username := A.username, photoUrl := A.photo_url }) := by
  refine ⟨?_, ?_, fun _ => rfl⟩
  · unfold createDataCheckString specDataCheckString
    rw [sortEntries_rawEntries]
  · unfold validateTelegramAuth
    rw [if_neg (not_lt.mpr hfresh)]
    simp

/-- Witness for C2: a concrete assertion signed with `"botsecret"`
under a concrete keyed hash. -/
theorem verify_signature_exact_witness :
    ((5 : Int) - sampleAssertion.auth_date ≤ twentyFourHours ∧
      validateTelegramAuth sampleHmac sampleHmac id sampleAssertion "botsecret" 5
        = true) ∧
    (createDataCheckString sampleAssertion = specDataCheckString sampleAssertion ∧
     (validateTelegramAuth sampleHmac sampleHmac id sampleAssertion "botsecret" 5
        = true ↔
       id (sampleHmac (sampleHmac "WebAppData" "botsecret")
         (createDataCheckString sampleAssertion)) = sampleAssertion.hash) ∧
     (validateTelegramAuth sampleHmac sampleHmac id sampleAssertion "botsecret" 5
        = true →
       convertToTelegramUser sampleAssertion =
         { id := sampleAssertion.id, firstName := sampleAssertion.first_name
           lastName := sampleAssertion.last_name
           username := sampleAssertion.username
           photoUrl := sampleAssertion.photo_url })) :=
  ⟨⟨by decide, by decide⟩,
   verify_signature_exact sampleHmac sampleHmac id sampleAssertion "botsecret" 5
     (by decide)⟩

/-- C2 counterexample: an assertion whose recomputed signature equals
its stored signature is still rejected when verified one second past
the 24-hour window, so "succeeds exactly when the HMAC matches" fails
without the freshness qualification. -/
theorem verify_signature_exact_counterexample :
    id (sampleHmac (sampleHmac "WebAppData" "botsecret")
      (createDataCheckString sampleAssertion)) = sampleAssertion.hash ∧
    validateTelegramAuth sampleHmac sampleHmac id sampleAssertion "botsecret"
      (5 + 86401) = false := by
  decide

/-- C3: an assertion issued more than 24 hours before the verification
time is rejected no matter what its signature is; the window is the
fixed constant `24 * 60 * 60` seconds, and the signature check never
decides the outcome for such an assertion. -/
theorem verify_expired_rejected {D : Type} (hmacS : String → String → D)
    (hmacD : D → String → D) (hex : D → String)
    (A : TelegramAuthData) (S : String) (now : Int)
    (hold : now - A.auth_date > twentyFourHours) :
    validateTelegramAuth hmacS hmacD hex A S now = false ∧
    (∀ sig : String,
      validateTelegramAuth hmacS hmacD hex { A with hash := sig } S now = false) ∧
    twentyFourHours = 24 * 60 * 60 := by
  refine ⟨?_, ?_, rfl⟩
  · unfold validateTelegramAuth
    rw [if_pos hold]
  · intro sig
    unfold validateTelegramAuth
    rw [if_pos (show now - ({ A with hash := sig } :
      TelegramAuthData).auth_date > twentyFourHours from hold)]

/-- Witness for C3: the sample assertion checked one second past the
24-hour window, with an otherwise valid signature. -/
theorem verify_expired_rejected_witness :
    (5 : Int) + 86401 - sampleAssertion.auth_date > twentyFourHours ∧
    (validateTelegramAuth sampleHmac sampleHmac id sampleAssertion "botsecret"
        (5 + 86401) = false ∧
     (∀ sig : String,
       validateTelegramAuth sampleHmac sampleHmac id
         { sampleAssertion with hash := sig } "botsecret" (5 + 86401) = false) ∧
     twentyFourHours = 24 * 60 * 60) :=
  ⟨by decide,
   verify_expired_rejected sampleHmac sampleHmac id sampleAssertion "botsecret"
     (5 + 86401) (by decide)⟩

/-- C9: the freshness check is one-sided — when `issuedAt` lies in the
future relative to the verification time, by any amount, the assertion
passes the freshness check, and verification succeeds exactly when the
signature matches. -/
theorem verify_future_dated_accepted {D : Type} (hmacS : String → String → D)
    (hmacD : D → String → D) (hex : D → String)
    (A : TelegramAuthData) (S : String) (now : Int)
    (hfut : now < A.auth_date) :
    validateTelegramAuth hmacS hmacD hex A S now = true ↔
      hex (hmacD (hmacS "WebAppData" S) (createDataCheckString A)) = A.hash := by
  unfold validateTelegramAuth
  rw [if_neg (show ¬ now - A.auth_date > twentyFourHours by
    simp only [twentyFourHours]
    omega)]
  simp

/-- Witness for C9: the sample assertion future-dated relative to
verification time 0 is accepted, its signature being valid. -/
theorem verify_future_dated_accepted_witness :
    (0 : Int) < sampleAssertion.auth_date ∧
    (validateTelegramAuth sampleHmac sampleHmac id sampleAssertion "botsecret" 0
        = true ↔
      id (sampleHmac (sampleHmac "WebAppData" "botsecret")
        (createDataCheckString sampleAssertion)) = sampleAssertion.hash) :=
  ⟨by decide,
   verify_future_dated_accepted sampleHmac sampleHmac id sampleAssertion
     "botsecret" 0 (by decide)⟩

lemma mem_ite_nil_left {α : Type} {c : Prop} [Decidable c] {l : List α} {e : α}
    (h : e ∈ (if c then [] else l)) : ¬c ∧ e ∈ l := by
  by_cases hc : c
  · rw [if_pos hc] at h
    cases h
  · rw [if_neg hc] at h
    exact ⟨hc, h⟩

lemma mem_ite_nil_right {α : Type} {c : Prop} [Decidable c] {l : List α} {e : α}
    (h : e ∈ (if c then l else [])) : c ∧ e ∈ l := by
  by_cases hc : c
  · rw [if_pos hc] at h
    exact ⟨hc, h⟩
  · rw [if_neg hc] at h
    cases h

lemma mem_insertEntry {e f : String × String} {l : List (String × String)} :
    e ∈ insertEntry f l ↔ e = f ∨ e ∈ l := by
  induction l with
  | nil => simp [insertEntry]
  | cons g rest ih =>
    unfold insertEntry
    by_cases hlt : strLt g.1 f.1 = true
    · rw [if_pos hlt]
      simp only [List.mem_cons, ih]
      tauto
    · rw [if_neg hlt]
      simp only [List.mem_cons]

lemma mem_sortEntries {e : String × String} {l : List (String × String)} :
    e ∈ sortEntries l ↔ e ∈ l := by
  induction l with
  | nil => simp [sortEntries]
  | cons f rest ih =>
    simp only [sortEntries, List.foldr] at ih ⊢
    rw [mem_insertEntry]
    simp [ih]

/-- Every entry of the check string comes from a truthy field, with its
key naming that field. -/
lemma mem_rawEntries_key (A : TelegramAuthData) (e : String × String)
    (he : e ∈ rawEntries A) :
    (e.1 = "id" ∧ A.id ≠ 0) ∨
    (e.1 = "first_name" ∧ A.first_name ≠ "") ∨
    (e.1 = "last_name" ∧ strTruthy A.last_name = true) ∨
    (e.1 = "username" ∧ strTruthy A.username = true) ∨
    (e.1 = "photo_url" ∧ strTruthy A.photo_url = true) ∨
    (e.1 = "auth_date" ∧ A.auth_date ≠ 0) := by
  simp only [rawEntries, optEntry, List.mem_append] at he
  rcases he with ((((h | h) | h) | h) | h) | h
  · obtain ⟨hc, hm⟩ := mem_ite_nil_left h
    rw [List.mem_singleton] at hm
    subst hm
    exact Or.inl ⟨rfl, hc⟩
  · obtain ⟨hc, hm⟩ := mem_ite_nil_left h
    rw [List.mem_singleton] at hm
    subst hm
    exact Or.inr (Or.inl ⟨rfl, hc⟩)
  · obtain ⟨hc, hm⟩ := mem_ite_nil_right h
    rw [List.mem_singleton] at hm
    subst hm
    exact Or.inr (Or.inr (Or.inl ⟨rfl, hc⟩))
  · obtain ⟨hc, hm⟩ := mem_ite_nil_right h
    rw [List.mem_singleton] at hm
    subst hm
    exact Or.inr (Or.inr (Or.inr (Or.inl ⟨rfl, hc⟩)))
  · obtain ⟨hc, hm⟩ := mem_ite_nil_right h
    rw [List.mem_singleton] at hm
    subst hm
    exact Or.inr (Or.inr (Or.inr (Or.inr (Or.inl ⟨rfl, hc⟩))))
  · obtain ⟨hc, hm⟩ := mem_ite_nil_left h
    rw [List.mem_singleton] at hm
    subst hm
    exact Or.inr (Or.inr (Or.inr (Or.inr (Or.inr ⟨rfl, hc⟩))))

/-- C10: the required-field check of the login endpoint treats falsy
values as absent — a request whose id is 0, whose first name or
signature is the empty string, or whose auth date is 0 is rejected
with the missing-fields error even though the field is syntactically
present; and the verifier's check string omits every field whose value
is falsy (0 or the empty string), not merely fields that are
undefined. -/
theorem falsy_fields_treated_as_absent {D : Type} (hmacS : String → String → D)
    (hmacD : D → String → D) (hex : D → String) (tok : String)
    (st : Store) (nowSec nowMs : Int) (A : TelegramAuthData)
    (htok : tok ≠ "") :
    ((A.id = 0 ∨ A.first_name = "" ∨ A.auth_date = 0 ∨ A.hash = "") →
      telegramLogin hmacS hmacD hex (some tok) st nowSec nowMs A =
        (.missingFields, st)) ∧
    (A.id = 0 → ∀ e ∈ sortEntries (rawEntries A), e.1 ≠ "id") ∧
    (A.first_name = "" → ∀ e ∈ sortEntries (rawEntries A), e.1 ≠ "first_name") ∧
    (A.auth_date = 0 → ∀ e ∈ sortEntries (rawEntries A), e.1 ≠ "auth_date") ∧
    (A.last_name = some "" → ∀ e ∈ sortEntries (rawEntries A), e.1 ≠ "last_name") ∧
    (A.username = some "" → ∀ e ∈ sortEntries (rawEntries A), e.1 ≠ "username") ∧
    (A.photo_url = some "" → ∀ e ∈ sortEntries (rawEntries A), e.1 ≠ "photo_url") := by
  refine ⟨?_, ?_, ?_, ?_, ?_, ?_, ?_⟩
  · intro hfalsy
    have hmiss : missingRequiredFields A = true := by
      simp only [missingRequiredFields, decide_eq_true_eq]
      tauto
    simp only [telegramLogin]
    rw [if_neg htok, if_pos hmiss]
  all_goals
    intro h e he
    rcases mem_rawEntries_key A e (mem_sortEntries.mp he) with
      ⟨h1, h2⟩ | ⟨h1, h2⟩ | ⟨h1, h2⟩ | ⟨h1, h2⟩ | ⟨h1, h2⟩ | ⟨h1, h2⟩ <;>
      rw [h1] <;>
      first
      | decide
      | exact absurd h h2
      | exact absurd h2 (by simp [h, strTruthy])

/-- Witness for C10: a concrete request with id 0 and present-but-empty
optional fields is rejected as missing fields, and its check string
omits them. -/
theorem falsy_fields_treated_as_absent_witness :
    (("t" : String) ≠ "" ∧
     telegramLogin sampleHmac sampleHmac id (some "t") Store.empty 5 5
       falsyAssertion = (.missingFields, Store.empty)) ∧
    ((falsyAssertion.id = 0 ∨ falsyAssertion.first_name = "" ∨
        falsyAssertion.auth_date = 0 ∨ falsyAssertion.hash = "") →
      telegramLogin sampleHmac sampleHmac id (some "t") Store.empty 5 5
        falsyAssertion = (.missingFields, Store.empty)) ∧
    (falsyAssertion.id = 0 →
      ∀ e ∈ sortEntries (rawEntries falsyAssertion), e.1 ≠ "id") ∧
    (falsyAssertion.first_name = "" →
      ∀ e ∈ sortEntries (rawEntries falsyAssertion), e.1 ≠ "first_name") ∧
    (falsyAssertion.auth_date = 0 →
      ∀ e ∈ sortEntries (rawEntries falsyAssertion), e.1 ≠ "auth_date") ∧
    (falsyAssertion.last_name = some "" →
      ∀ e ∈ sortEntries (rawEntries falsyAssertion), e.1 ≠ "last_name") ∧
    (falsyAssertion.username = some "" →
      ∀ e ∈ sortEntries (rawEntries falsyAssertion), e.1 ≠ "username") ∧
    (falsyAssertion.photo_url = some "" →
      ∀ e ∈ sortEntries (rawEntries falsyAssertion), e.1 ≠ "photo_url") :=
  ⟨⟨by decide, by decide⟩,
   (falsy_fields_treated_as_absent sampleHmac sampleHmac id "t" Store.empty 5 5
     falsyAssertion (by decide)).1,
   (falsy_fields_treated_as_absent sampleHmac sampleHmac id "t" Store.empty 5 5
     falsyAssertion (by decide)).2.1,
   (falsy_fields_treated_as_absent sampleHmac sampleHmac id "t" Store.empty 5 5
     falsyAssertion (by decide)).2.2.1,
   (falsy_fields_treated_as_absent sampleHmac sampleHmac id "t" Store.empty 5 5
     falsyAssertion (by decide)).2.2.2.1,
   (falsy_fields_treated_as_absent sampleHmac sampleHmac id "t" Store.empty 5 5
     falsyAssertion (by decide)).2.2.2.2.1,
   (falsy_fields_treated_as_absent sampleHmac sampleHmac id "t" Store.empty 5 5
     falsyAssertion (by decide)).2.2.2.2.2.1,
   (falsy_fields_treated_as_absent sampleHmac sampleHmac id "t" Store.empty 5 5
     falsyAssertion (by decide)).2.2.2.2.2.2⟩

/-- C1 counterexample: from the empty store, two `createSession` calls
for the same external user id (42) return different session ids, and
afterwards two live sessions for that user exist at once — `create` is
not insert-or-return-existing. -/
theorem create_not_upsert_counterexample :
    (createSession Store.empty 0 sampleInput).1 ≠
      (createSession (createSession Store.empty 0 sampleInput).2 0 sampleInput).1 ∧
    ((createSession (createSession Store.empty 0 sampleInput).2 0
        sampleInput).2.sessions.filter
        (fun s => s.telegramId == 42 && ! isExpired 0 s)).length = 2 := by
  decide

/-- C1 amended: the store's `create` is a blind insert, not an
insert-or-return-existing upsert: every call returns a session id held
by no stored session, and two consecutive `create` calls for the same
external user id return distinct session ids while both records remain
stored and live (only the bot-login path checks for an existing live
session before creating). -/
theorem create_blind_insert (st : Store) (now now' : Int) (u : SessionInput)
    (hwf : Wf st now) (hwin : now' - now ≤ SESSION_TIMEOUT_MS) :
    (∀ s ∈ st.sessions, (createSession st now u).1 ≠ s.sessionId) ∧
    (createSession st now u).1 ≠
      (createSession (createSession st now u).2 now' u).1 ∧
    (∃ s1 ∈ (createSession (createSession st now u).2 now' u).2.sessions,
       s1.sessionId = (createSession st now u).1 ∧
       s1.telegramId = u.telegramId ∧ isExpired now' s1 = false) ∧
    (∃ s2 ∈ (createSession (createSession st now u).2 now' u).2.sessions,
       s2.sessionId = (createSession (createSession st now u).2 now' u).1 ∧
       s2.telegramId = u.telegramId ∧ isExpired now' s2 = false) := by
  refine ⟨fun s hs => ne_of_gt (hwf s hs).1, Nat.ne_of_lt (Nat.lt_succ_self _),
    ⟨_, List.mem_cons_of_mem _ (List.mem_cons_self _ _), rfl, rfl, ?_⟩,
    ⟨_, List.mem_cons_self _ _, rfl, rfl, ?_⟩⟩
  · simp only [isExpired, decide_eq_false_iff_not, not_lt]
    exact hwin
  · simp only [isExpired, decide_eq_false_iff_not, not_lt, SESSION_TIMEOUT_MS]
    omega

/-- Witness for the amended C1 at the empty store. -/
theorem create_blind_insert_witness :
    (Wf Store.empty 0 ∧ (0 : Int) - 0 ≤ SESSION_TIMEOUT_MS) ∧
    ((∀ s ∈ Store.empty.sessions,
        (createSession Store.empty 0 sampleInput).1 ≠ s.sessionId) ∧
     (createSession Store.empty 0 sampleInput).1 ≠
       (createSession (createSession Store.empty 0 sampleInput).2 0
         sampleInput).1 ∧
     (∃ s1 ∈ (createSession (createSession Store.empty 0 sampleInput).2 0
          sampleInput).2.sessions,
        s1.sessionId = (createSession Store.empty 0 sampleInput).1 ∧
        s1.telegramId = sampleInput.telegramId ∧ isExpired 0 s1 = false) ∧
     (∃ s2 ∈ (createSession (createSession Store.empty 0 sampleInput).2 0
          sampleInput).2.sessions,
        s2.sessionId = (createSession (createSession Store.empty 0
          sampleInput).2 0 sampleInput).1 ∧
        s2.telegramId = sampleInput.telegramId ∧ isExpired 0 s2 = false)) :=
  ⟨⟨fun s hs => by simp [Store.empty] at hs, by decide⟩,
   create_blind_insert Store.empty 0 0 sampleInput
     (fun s hs => by simp [Store.empty] at hs) (by decide)⟩

/-- C5: `create(identity)` followed by `getBySessionId` on the returned
id within the timeout returns the identity fields unchanged with
`lastActivityAt ≥ createdAt`; every successful `getBySessionId` bumps
`lastActivityAt` to the read time and persists the bump; and after any
monotone-time trace of operations from the empty store every stored
session satisfies `lastActivityAt - createdAt ≥ 0`. -/
theorem create_get_roundtrip_invariant (st : Store) (now now' : Int)
    (u : SessionInput) (hle : now ≤ now')
    (hwin : now' - now ≤ SESSION_TIMEOUT_MS) :
    (∃ s st2,
      getSessionUser (createSession st now u).2 now' (createSession st now u).1
        = (some s, st2) ∧
      s.telegramId = u.telegramId ∧ s.firstName = u.firstName ∧
      s.lastName = u.lastName ∧ s.username = u.username ∧
      s.photoUrl = u.photoUrl ∧ s.createdAt = now ∧ s.lastActivity = now' ∧
      s.createdAt ≤ s.lastActivity ∧
      findBySessionId st2 (createSession st now u).1 = some s) ∧
    (∀ (st1 : Store) (t : Int) (sid : Nat) (s : SessionUser) (st2 : Store),
      getSessionUser st1 t sid = (some s, st2) →
      s.lastActivity = t ∧ findBySessionId st2 sid = some s) ∧
    (∀ (t0 : Int) (trace : List (Int × Op)), timesLB t0 trace →
      ∀ s ∈ (run Store.empty trace).sessions,
        0 ≤ s.lastActivity - s.createdAt) := by
  refine ⟨?_, ?_, ?_⟩
  · refine ⟨freshRecord st now u now', _,
      getSessionUser_create st now now' u hwin,
      rfl, rfl, rfl, rfl, rfl, rfl, rfl, hle, ?_⟩
    unfold findBySessionId
    dsimp only
    exact List.find?_cons_of_pos _ (decide_eq_true rfl)
  · intro st1 t sid s st2 h
    unfold getSessionUser at h
    split at h
    · simp at h
    next s0 hfind =>
      split at h
      · simp at h
      next hexp =>
        have hsid : s0.sessionId = sid := (findBySessionId_mem hfind).2
        have h1 : some { s0 with lastActivity := t } = some s :=
          congrArg Prod.fst h
        have h2 : Store.mk (st1.sessions.map (fun x =>
              if x.sessionId = sid then { s0 with lastActivity := t } else x))
            st1.nextId = st2 := congrArg Prod.snd h
        injection h1 with h1
        subst h1
        subst h2
        refine ⟨rfl, ?_⟩
        unfold findBySessionId at hfind ⊢
        exact find?_map_update _ hfind hsid
  · intro t0 trace hlb s hs
    obtain ⟨t1, hwf⟩ := wf_run Store.empty t0
      (fun s hs => absurd hs (List.not_mem_nil s)) hlb
    have := (hwf s hs).2.1
    omega

/-- Witness for C5: create at time 0 and read at time 5 in the empty
store; a concrete monotone trace. -/
theorem create_get_roundtrip_invariant_witness :
    ((0 : Int) ≤ 5 ∧ (5 : Int) - 0 ≤ SESSION_TIMEOUT_MS ∧
      timesLB 0 [(0, Op.create sampleInput), (5, Op.get 0)] ∧
      (getSessionUser (createSession Store.empty 0 sampleInput).2 5
        (createSession Store.empty 0 sampleInput).1).1 =
        some (freshRecord Store.empty 0 sampleInput 5)) ∧
    ((∃ s st2,
      getSessionUser (createSession Store.empty 0 sampleInput).2 5
        (createSession Store.empty 0 sampleInput).1 = (some s, st2) ∧
      s.telegramId = sampleInput.telegramId ∧
      s.firstName = sampleInput.firstName ∧
      s.lastName = sampleInput.lastName ∧ s.username = sampleInput.username ∧
      s.photoUrl = sampleInput.photoUrl ∧ s.createdAt = 0 ∧
      s.lastActivity = 5 ∧ s.createdAt ≤ s.lastActivity ∧
      findBySessionId st2 (createSession Store.empty 0 sampleInput).1 = some s) ∧
    (∀ (st1 : Store) (t : Int) (sid : Nat) (s : SessionUser) (st2 : Store),
      getSessionUser st1 t sid = (some s, st2) →
      s.lastActivity = t ∧ findBySessionId st2 sid = some s) ∧
    (∀ (t0 : Int) (trace : List (Int × Op)), timesLB t0 trace →
      ∀ s ∈ (run Store.empty trace).sessions,
        0 ≤ s.lastActivity - s.createdAt)) :=
  ⟨⟨by decide, by decide, ⟨le_refl 0, by decide, trivial⟩, by decide⟩,
   create_get_roundtrip_invariant Store.empty 0 5 sampleInput (by decide)
     (by decide)⟩

/-- C6: a session whose `lastActivity` lies more than the timeout
before `now` is absent from `getSessionUser`, which deletes its record
rather than returning stale data; one cleanup tick (the sweep running
at the fixed 1-hour interval) removes exactly the records with
`now - lastActivity > TIMEOUT`, read or not; the timeout is 7 days and
the sweep interval 1 hour, both fixed constants. -/
theorem expiry_lazy_and_sweep (st : Store) (now : Int) (sid : Nat)
    (s : SessionUser) (hfind : findBySessionId st sid = some s)
    (hexp : now - s.lastActivity > SESSION_TIMEOUT_MS) :
    (getSessionUser st now sid).1 = none ∧
    findBySessionId (getSessionUser st now sid).2 sid = none ∧
    (∀ t ∈ (cleanupTick st now).sessions,
      now - t.lastActivity ≤ SESSION_TIMEOUT_MS) ∧
    (∀ t ∈ st.sessions, now - t.lastActivity ≤ SESSION_TIMEOUT_MS →
      t ∈ (cleanupTick st now).sessions) ∧
    (∀ t ∈ st.sessions, now - t.lastActivity > SESSION_TIMEOUT_MS →
      t ∉ (cleanupTick st now).sessions) ∧
    SESSION_TIMEOUT_MS = 7 * 24 * 60 * 60 * 1000 ∧
    CLEANUP_INTERVAL_MS = 60 * 60 * 1000 := by
  have he : isExpired now s = true := by
    simp only [isExpired, decide_eq_true_eq]
    exact hexp
  have hget : getSessionUser st now sid =
      (none, { st with
        sessions := st.sessions.filter (fun t => t.sessionId ≠ sid) }) := by
    unfold getSessionUser
    rw [hfind]
    exact if_pos he
  refine ⟨by rw [hget], ?_, ?_, ?_, ?_, rfl, rfl⟩
  · rw [hget]
    unfold findBySessionId
    exact find?_filter_ne st.sessions sid
  · intro t ht
    have hmem := List.of_mem_filter ht
    simp only [decide_eq_true_eq, isExpired] at hmem
    omega
  · intro t ht hlive
    refine List.mem_filter.mpr ⟨ht, ?_⟩
    simp only [decide_eq_true_eq, isExpired]
    omega
  · intro t ht hexp' hmem
    have hkept := List.of_mem_filter hmem
    simp only [decide_eq_true_eq, isExpired] at hkept
    omega

/-- Witness for C6: the sample store read 7 days and 1 second after the
stored session's last activity. -/
theorem expiry_lazy_and_sweep_witness :
    (findBySessionId sampleTokenStore 0 = some sampleTokenSession ∧
     SESSION_TIMEOUT_MS + 1000 - sampleTokenSession.lastActivity >
       SESSION_TIMEOUT_MS) ∧
    ((getSessionUser sampleTokenStore (SESSION_TIMEOUT_MS + 1000) 0).1 = none ∧
     findBySessionId
       (getSessionUser sampleTokenStore (SESSION_TIMEOUT_MS + 1000) 0).2 0 =
       none ∧
     (∀ t ∈ (cleanupTick sampleTokenStore (SESSION_TIMEOUT_MS + 1000)).sessions,
       SESSION_TIMEOUT_MS + 1000 - t.lastActivity ≤ SESSION_TIMEOUT_MS) ∧
     (∀ t ∈ sampleTokenStore.sessions,
       SESSION_TIMEOUT_MS + 1000 - t.lastActivity ≤ SESSION_TIMEOUT_MS →
       t ∈ (cleanupTick sampleTokenStore (SESSION_TIMEOUT_MS + 1000)).sessions) ∧
     (∀ t ∈ sampleTokenStore.sessions,
       SESSION_TIMEOUT_MS + 1000 - t.lastActivity > SESSION_TIMEOUT_MS →
       t ∉ (cleanupTick sampleTokenStore (SESSION_TIMEOUT_MS + 1000)).sessions) ∧
     SESSION_TIMEOUT_MS = 7 * 24 * 60 * 60 * 1000 ∧
     CLEANUP_INTERVAL_MS = 60 * 60 * 1000) :=
  ⟨⟨by decide, by decide⟩,
   expiry_lazy_and_sweep sampleTokenStore (SESSION_TIMEOUT_MS + 1000) 0
     sampleTokenSession (by decide) (by decide)⟩

lemma botLogin_create {st : Store} {now : Int} {tid : Int} {fn : String}
    (ln un ph tok : Option String)
    (h0 : ¬(tid = 0 ∨ fn = ""))
    (hnosess : getSessionByTelegramId st now tid = none) :
    botLogin st now tid fn ln un ph tok =
      (.success
        { id := tid, firstName := fn, lastName := ln, username := un
          photoUrl := ph } st.nextId,
       { sessions := freshRecord st now
           { telegramId := tid, firstName := fn, lastName := ln
             username := un, photoUrl := ph, authToken := tok } now ::
           st.sessions.map (fun t => if t.sessionId = st.nextId then
             freshRecord st now
               { telegramId := tid, firstName := fn, lastName := ln
                 username := un, photoUrl := ph, authToken := tok } now else t)
         nextId := st.nextId + 1 }) := by
  unfold botLogin
  rw [if_neg h0, hnosess, getSessionUser_create st now now _
    (by simp only [SESSION_TIMEOUT_MS]; omega)]
  rfl

lemma getSessionByAuthToken_cons {s : SessionUser} {l : List SessionUser}
    {nid : Nat} {now : Int} {tok : String}
    (hmatch : s.authToken = some tok) (hexp : ¬ isExpired now s = true) :
    getSessionByAuthToken (Store.mk (s :: l) nid) now tok = some s := by
  unfold getSessionByAuthToken
  have hcons : List.find? (fun t => t.authToken = some tok) (s :: l) = some s :=
    List.find?_cons_of_pos _ (by simp [hmatch])
  dsimp only
  rw [hcons]
  split
  next heq => exact Option.noConfusion heq
  next s1 heq =>
    injection heq with heq
    subst heq
    rw [if_neg hexp]

lemma getSessionByTelegramId_mem {st : Store} {now : Int} {tid : Int}
    {s : SessionUser} (h : getSessionByTelegramId st now tid = some s) :
    s ∈ st.sessions ∧ s.telegramId = tid ∧ isExpired now s = false := by
  unfold getSessionByTelegramId at h
  split at h
  · exact Option.noConfusion h
  next s0 hfind =>
    split at h
    · exact Option.noConfusion h
    next hexp =>
      injection h with h
      subst h
      refine ⟨List.mem_of_find?_eq_some hfind, ?_, ?_⟩
      · have := List.find?_some hfind
        simpa using this
      · simpa using hexp

/-- C7: the token-polling check is a pure read — for a token with no
matching session it answers unauthenticated and leaves the store
unchanged (indeed it never mutates the store); and after a bot login
that attached that token for some external user id, the same poll
answers authenticated with the session id of the bot-login response. -/
theorem token_poll_pure_and_correlated (st : Store) (now : Int) (tid : Int)
    (fn tok : String) (htok : tok ≠ "") (htid : tid ≠ 0) (hfn : fn ≠ "")
    (hmiss : getSessionByAuthToken st now tok = none)
    (hnosess : getSessionByTelegramId st now tid = none) :
    checkToken st now tok = (.notAuthenticated, st) ∧
    (∀ (st' : Store) (now' : Int) (token' : String),
      (checkToken st' now' token').2 = st') ∧
    (∃ st2,
      botLogin st now tid fn none none none (some tok) =
        (.success { id := tid, firstName := fn, lastName := none
                    username := none, photoUrl := none } st.nextId, st2) ∧
      checkToken st2 now tok =
        (.authenticated { id := tid, firstName := fn, lastName := none
                          username := none, photoUrl := none } st.nextId,
         st2)) := by
  have h0 : ¬(tid = 0 ∨ fn = "") := by
    push_neg
    exact ⟨htid, hfn⟩
  refine ⟨?_, fun st' now' token' => checkToken_store st' now' token', ?_⟩
  · unfold checkToken
    rw [if_neg htok, hmiss]
  · refine ⟨_, botLogin_create none none none (some tok) h0 hnosess, ?_⟩
    have hfind2 : getSessionByAuthToken
        (Store.mk (freshRecord st now
          { telegramId := tid, firstName := fn, lastName := none
            username := none, photoUrl := none, authToken := some tok } now ::
          st.sessions.map (fun t => if t.sessionId = st.nextId then
            freshRecord st now
              { telegramId := tid, firstName := fn, lastName := none
                username := none, photoUrl := none
                authToken := some tok } now else t))
          (st.nextId + 1)) now tok =
        some (freshRecord st now
          { telegramId := tid, firstName := fn, lastName := none
            username := none, photoUrl := none
            authToken := some tok } now) :=
      getSessionByAuthToken_cons rfl
        (by simp only [isExpired, freshRecord, decide_eq_true_eq,
              SESSION_TIMEOUT_MS]
            omega)
    unfold checkToken
    rw [if_neg htok, hfind2]
    rfl

/-- Witness for C7: the scenario at the empty store, user 42, token
`tok-123`. -/
theorem token_poll_pure_and_correlated_witness :
    (("tok-123" : String) ≠ "" ∧ (42 : Int) ≠ 0 ∧ ("Ann" : String) ≠ "" ∧
     getSessionByAuthToken Store.empty 0 "tok-123" = none ∧
     getSessionByTelegramId Store.empty 0 42 = none) ∧
    (checkToken Store.empty 0 "tok-123" = (.notAuthenticated, Store.empty) ∧
     (∀ (st' : Store) (now' : Int) (token' : String),
       (checkToken st' now' token').2 = st') ∧
     (∃ st2,
       botLogin Store.empty 0 42 "Ann" none none none (some "tok-123") =
         (.success { id := 42, firstName := "Ann", lastName := none
                     username := none, photoUrl := none }
           Store.empty.nextId, st2) ∧
       checkToken st2 0 "tok-123" =
         (.authenticated { id := 42, firstName := "Ann", lastName := none
                           username := none, photoUrl := none }
           Store.empty.nextId, st2))) :=
  ⟨⟨by decide, by decide, by decide, by decide, by decide⟩,
   token_poll_pure_and_correlated Store.empty 0 42 "Ann" "tok-123"
     (by decide) (by decide) (by decide) (by decide) (by decide)⟩

/-- C8 counterexample: user 7 already has a live session whose token is
`old-token`; a bot login for user 7 carrying token `new-token` answers
with the existing session id but leaves the store — and the stored
token — unchanged, so `new-token` is never attached and polling it
still fails. -/
theorem bot_login_attach_counterexample :
    (botLogin sampleTokenStore 0 7 "Bob" none none none (some "new-token")).1 =
      .success { id := 7, firstName := "Bob", lastName := none
                 username := none, photoUrl := none } 0 ∧
    (botLogin sampleTokenStore 0 7 "Bob" none none none
      (some "new-token")).2 = sampleTokenStore ∧
    checkToken (botLogin sampleTokenStore 0 7 "Bob" none none none
      (some "new-token")).2 0 "new-token" =
      (.notAuthenticated, sampleTokenStore) := by
  decide

/-- C8 amended: bot login for an external user with a live session
reuses that session — no record is inserted, the response carries the
existing session id — but the token is attached only when the request
carries a non-empty token and the stored session has no truthy token
already; otherwise the store (and the old token) is left unchanged.
With no live session, a new session is created with the token stored. -/
theorem bot_login_reuse_amended (st : Store) (now : Int) (tid : Int)
    (fn : String) (ln un ph : Option String) (tok : String) :
    (∀ s, getSessionByTelegramId st now tid = some s → tid ≠ 0 → fn ≠ "" →
      botLogin st now tid fn ln un ph (some tok) =
        (.success (userOf s) s.sessionId,
          if strTruthy (some tok) = true ∧ ¬ strTruthy s.authToken = true then
            setAuthToken st s.sessionId tok
          else st) ∧
      (botLogin st now tid fn ln un ph (some tok)).2.sessions.length =
        st.sessions.length ∧
      (botLogin st now tid fn ln un ph (some tok)).2.nextId = st.nextId ∧
      (tok ≠ "" → ¬ strTruthy s.authToken = true →
        { s with authToken := some tok } ∈
          (botLogin st now tid fn ln un ph (some tok)).2.sessions) ∧
      ((tok = "" ∨ strTruthy s.authToken = true) →
        (botLogin st now tid fn ln un ph (some tok)).2 = st)) ∧
    (getSessionByTelegramId st now tid = none → tid ≠ 0 → fn ≠ "" →
      ∃ st2, botLogin st now tid fn ln un ph (some tok) =
        (.success { id := tid, firstName := fn, lastName := ln
                    username := un, photoUrl := ph } st.nextId, st2) ∧
        ∃ s2 ∈ st2.sessions, s2.sessionId = st.nextId ∧
          s2.authToken = some tok) := by
  constructor
  · intro s hs htid hfn
    have h0 : ¬(tid = 0 ∨ fn = "") := by
      push_neg
      exact ⟨htid, hfn⟩
    have hbl : botLogin st now tid fn ln un ph (some tok) =
        (.success (userOf s) s.sessionId,
          if strTruthy (some tok) = true ∧ ¬ strTruthy s.authToken = true then
            setAuthToken st s.sessionId tok
          else st) := by
      unfold botLogin
      rw [if_neg h0, hs]
      split
      next heq => exact Option.noConfusion heq
      next s1 heq =>
        injection heq with heq
        subst heq
        by_cases hc : strTruthy (some tok) = true ∧
            ¬ strTruthy s.authToken = true
        · rw [if_pos hc, if_pos hc]
          rfl
        · rw [if_neg hc, if_neg hc]
    refine ⟨hbl, ?_, ?_, ?_, ?_⟩
    · rw [hbl]
      by_cases hc : strTruthy (some tok) = true ∧ ¬ strTruthy s.authToken = true
      · rw [if_pos hc]
        simp [setAuthToken]
      · rw [if_neg hc]
    · rw [hbl]
      by_cases hc : strTruthy (some tok) = true ∧ ¬ strTruthy s.authToken = true
      · rw [if_pos hc]
        rfl
      · rw [if_neg hc]
    · intro h1 h2
      rw [hbl, if_pos ⟨decide_eq_true h1, h2⟩]
      have hsmem : s ∈ st.sessions := (getSessionByTelegramId_mem hs).1
      have hmem := List.mem_map_of_mem
        (fun t => if t.sessionId = s.sessionId then
          { t with authToken := some tok } else t) hsmem
      have hmem2 : (if s.sessionId = s.sessionId then
          { s with authToken := some tok } else s) ∈
          st.sessions.map (fun t => if t.sessionId = s.sessionId then
            { t with authToken := some tok } else t) := hmem
      rw [if_pos rfl] at hmem2
      exact hmem2
    · intro hdisj
      rw [hbl, if_neg ?_]
      rintro ⟨h1, h2⟩
      rcases hdisj with h | h
      · rw [h] at h1
        simp [strTruthy] at h1
      · exact h2 h
  · intro hnosess htid hfn
    have h0 : ¬(tid = 0 ∨ fn = "") := by
      push_neg
      exact ⟨htid, hfn⟩
    exact ⟨_, botLogin_create ln un ph (some tok) h0 hnosess,
      ⟨_, List.mem_cons_self _ _, rfl, rfl⟩⟩

/-- Witness for the amended C8: live-session reuse at the sample store
(old token kept), and fresh creation at the empty store. -/
theorem bot_login_reuse_amended_witness :
    ((botLogin sampleTokenStore 0 7 "Bob" none none none (some "new-token") =
        (.success (userOf sampleTokenSession) sampleTokenSession.sessionId,
          if strTruthy (some "new-token") = true ∧
              ¬ strTruthy sampleTokenSession.authToken = true then
            setAuthToken sampleTokenStore sampleTokenSession.sessionId
              "new-token"
          else sampleTokenStore)) ∧
      (botLogin sampleTokenStore 0 7 "Bob" none none none
        (some "new-token")).2.sessions.length =
        sampleTokenStore.sessions.length ∧
      (botLogin sampleTokenStore 0 7 "Bob" none none none
        (some "new-token")).2.nextId = sampleTokenStore.nextId ∧
      (("new-token" : String) ≠ "" →
        ¬ strTruthy sampleTokenSession.authToken = true →
        { sampleTokenSession with authToken := some "new-token" } ∈
          (botLogin sampleTokenStore 0 7 "Bob" none none none
            (some "new-token")).2.sessions) ∧
      ((("new-token" : String) = "" ∨
          strTruthy sampleTokenSession.authToken = true) →
        (botLogin sampleTokenStore 0 7 "Bob" none none none
          (some "new-token")).2 = sampleTokenStore)) ∧
    (∃ st2, botLogin Store.empty 0 7 "Bob" none none none (some "tok-9") =
      (.success { id := 7, firstName := "Bob", lastName := none
                  username := none, photoUrl := none }
        Store.empty.nextId, st2) ∧
      ∃ s2 ∈ st2.sessions, s2.sessionId = Store.empty.nextId ∧
        s2.authToken = some "tok-9") :=
  ⟨(bot_login_reuse_amended sampleTokenStore 0 7 "Bob" none none none
      "new-token").1 sampleTokenSession (by decide) (by decide) (by decide),
   (bot_login_reuse_amended Store.empty 0 7 "Bob" none none none "tok-9").2
     (by decide) (by decide) (by decide)⟩

end TelegramAuth
